import Mathlib

/-!
# Verification of the tarpaulin configuration module

A shallow embedding of `src/config/mod.rs`: the `Config` data model, the
CLI-to-config resolver, the multi-profile config-file loader, the glob-style
file-exclusion matcher and the relative-path algorithm
(`path_relative_from`), together with theorems settling the specified
properties of these operations.

Paths are embedded at the level of Rust's `std::path::Component` sequences,
which is the representation `path_relative_from` actually walks. A parser
(`parsePath`) and printer (`pathToString`) mirror `Path::components()`
normalisation and `PathBuf`/`to_str` rendering on Unix, so string-level
facts from the tests can be stated as well.
-/

set_option autoImplicit false

namespace Tarpaulin

/-- Rust `std::path::Component` on Unix: the root `/`, a literal `.`,
a literal `..`, or a normal named component. (The Windows-only `Prefix`
variant is omitted: the code under verification never constructs it on the
Unix component model.) -/
inductive Component where
  | rootDir
  | curDir
  | parentDir
  | normal (s : String)
deriving DecidableEq, Repr

/-- A `PathBuf`, represented by its component sequence as produced by
`Path::components()`. -/
abbrev PathBuf := List Component

/-- Rust `Path::is_absolute` on Unix: the path has a root, i.e. its
component sequence starts with `RootDir`. -/
def isAbsolute : PathBuf → Bool
  | Component.rootDir :: _ => true
  | _ => false

/-- The component walk inside `path_relative_from`
(`src/config/mod.rs` lines 317-339): `comps` is the accumulated output
vector, the two lists are the remaining iterators `ita` (of `path`) and
`itb` (of `base`). Each equation is one arm of the Rust `match`, in source
order. -/
def relLoop : List Component → List Component → List Component → Option (List Component)
  | [], [], comps => some comps
  | a :: as, [], comps => some (comps ++ a :: as)
  | [], _ :: bs, comps => relLoop [] bs (comps ++ [Component.parentDir])
  | a :: as, b :: bs, comps =>
    if comps = [] ∧ a = b then relLoop as bs comps
    else if b = Component.curDir then relLoop as bs (comps ++ [a])
    else if b = Component.parentDir then none
    else
      some (comps ++ Component.parentDir :: (bs.map fun _ => Component.parentDir) ++ a :: as)

/-- `path_relative_from(path, base)` (`src/config/mod.rs` lines 303-342):
the relative path from `base` to `path`, if one exists. -/
def path_relative_from (path base : PathBuf) : Option PathBuf :=
  if isAbsolute path ≠ isAbsolute base then
    if isAbsolute path then some path else none
  else
    relLoop path base []

/-- Split a character list on `/`, keeping empty segments
(helper for `parsePath`). -/
def splitSlash : List Char → List Char → List String
  | [], acc => [String.mk acc.reverse]
  | c :: rest, acc =>
    if c = '/' then String.mk acc.reverse :: splitSlash rest []
    else splitSlash rest (c :: acc)

/-- Non-leading segments of a Unix path: empty segments (repeated or
trailing separators) and `.` are normalised away, `..` becomes `ParentDir`,
anything else is a `Normal` component — exactly `Path::components()`. -/
def parseSegs : List String → List Component
  | [] => []
  | s :: rest =>
    if s = "" ∨ s = "." then parseSegs rest
    else if s = ".." then Component.parentDir :: parseSegs rest
    else Component.normal s :: parseSegs rest

/-- `Path::new(s).components()` on Unix: a leading `/` yields `RootDir`, a
leading `.` is kept as `CurDir`, and the remaining segments are normalised
by `parseSegs`. -/
def parsePath (s : String) : PathBuf :=
  match splitSlash s.data [] with
  | [] => []
  | first :: rest =>
    if first = "" ∧ rest = [] then []
    else if first = "" then Component.rootDir :: parseSegs rest
    else if first = "." then Component.curDir :: parseSegs rest
    else if first = ".." then Component.parentDir :: parseSegs rest
    else Component.normal first :: parseSegs rest

/-- `Component::as_os_str` for the non-root components. -/
def Component.str : Component → String
  | Component.rootDir => "/"
  | Component.curDir => "."
  | Component.parentDir => ".."
  | Component.normal s => s

/-- Join components with `/` (helper for `pathToString`). -/
def joinComps : List Component → String
  | [] => ""
  | [c] => Component.str c
  | c :: rest => Component.str c ++ "/" ++ joinComps rest

/-- Rendering of a `PathBuf` collected from a component sequence, as
`to_str` returns it on Unix: `/`-joined components, with a leading root
rendered as a single `/`. -/
def pathToString : PathBuf → String
  | Component.rootDir :: rest => "/" ++ joinComps rest
  | l => joinComps l

/-- `starMatch k s` holds when the continuation `k` (matching the rest of
the pattern) accepts some suffix of `s`: the semantics of a `*`
(match-any) token followed by the rest of the pattern. -/
def starMatch (k : List Char → Bool) : List Char → Bool
  | [] => k []
  | c :: s => k (c :: s) || starMatch k s

/-- Glob matching: `*` matches any character sequence, every other
character is literal, and the whole pattern is anchored against the whole
string. This is the semantics of the anchored regex that the exclusion
matcher compiles each glob into (spec §4.2: escape regex metacharacters in
the literal segments, replace `*` by a match-any token, anchor the whole
pattern). -/
def globMatch : List Char → List Char → Bool
  | [], s => s.isEmpty
  | p :: ps, s =>
    if p = '*' then starMatch (globMatch ps) s
    else
      match s with
      | [] => false
      | c :: s2 => p = c && globMatch ps s2

/-- A compiled exclusion matcher. Modelled from the spec: the source stores
`regex::Regex` values compiled by `regexes_from_excluded` in
`src/config/parse.rs` (absent from the shown sources); per spec §4.2 the
compiled form of a glob is the anchored match-any/literal pattern, so the
compiled matcher is represented by its glob pattern and matching is
`globMatch`. -/
structure Regex where
  pattern : List Char
deriving DecidableEq, Repr

/-- `Regex::is_match` on the full string (the compiled pattern is
anchored). -/
def Regex.is_match (r : Regex) (s : String) : Bool :=
  globMatch r.pattern s.data

/-- Modelled from the spec: `RunType` lives in `src/config/types.rs`
(absent from the shown sources); the spec only fixes that `run_types`
defaults to the single element `Tests`. -/
inductive RunType where
  | Tests
  | named (s : String)
deriving DecidableEq, Repr

/-- Modelled from the spec: `OutputFile` lives in `src/config/types.rs`
(absent from the shown sources); output formats are opaque names here. -/
inductive OutputFile where
  | named (s : String)
deriving DecidableEq, Repr

/-- Modelled from the spec: `coveralls_api::CiService` is an external enum
of recognised CI providers; opaque names here. -/
inductive CiService where
  | named (s : String)
deriving DecidableEq, Repr

/-- The `Config` struct (`src/config/mod.rs` lines 21-101), field for
field. `excluded_files` is the `RefCell<Vec<Regex>>` cache; interior
mutability is embedded by explicit state passing (`exclude_path` returns
the updated `Config`). `test_timeout` is in seconds. -/
structure Config where
  name : String
  manifest : PathBuf
  config : Option PathBuf
  root : Option String
  run_ignored : Bool
  ignore_tests : Bool
  ignore_panics : Bool
  force_clean : Bool
  verbose : Bool
  debug : Bool
  count : Bool
  line_coverage : Bool
  branch_coverage : Bool
  output_directory : PathBuf
  coveralls : Option String
  ci_tool : Option CiService
  report_uri : Option String
  forward_signals : Bool
  all_features : Bool
  no_default_features : Bool
  all : Bool
  test_timeout : Nat
  release : Bool
  no_run : Bool
  locked : Bool
  frozen : Bool
  target_dir : Option PathBuf
  offline : Bool
  run_types : List RunType
  packages : List String
  exclude : List String
  excluded_files : List Regex
  excluded_files_raw : List String
  varargs : List String
  features : List String
  unstable_features : List String
  generate : List OutputFile
deriving DecidableEq, Repr

/-- Modelled from the spec: `default_manifest` lives in
`src/config/parse.rs` (absent); per spec §3 the manifest defaults to a
well-known filename in the current directory. -/
def default_manifest : PathBuf := [Component.normal "Cargo.toml"]

/-- `impl Default for Config` (`src/config/mod.rs` lines 103-145). -/
def Config.default : Config where
  name := ""
  run_types := [RunType.Tests]
  manifest := default_manifest
  config := none
  root := none
  run_ignored := false
  ignore_tests := false
  ignore_panics := false
  force_clean := false
  verbose := false
  debug := false
  count := false
  line_coverage := true
  branch_coverage := false
  generate := []
  output_directory := []
  coveralls := none
  ci_tool := none
  report_uri := none
  forward_signals := false
  no_default_features := false
  features := []
  unstable_features := []
  all := false
  packages := []
  exclude := []
  excluded_files := []
  excluded_files_raw := []
  varargs := []
  test_timeout := 60
  release := false
  all_features := false
  no_run := false
  locked := false
  frozen := false
  target_dir := none
  offline := false

/-- The outcome of opening, reading and TOML-parsing a config file: the
external I/O and deserialisation steps of `load_config_file`, abstracted to
their three possible results. A parsed file is the key-ordered entry list
of the `HashMap<String, Config>` (iteration order abstract). -/
inductive FileReadResult where
  | ioError
  | parseError
  | parsed (entries : List (String × Config))

/-- Error taxonomy of the loader (spec §7): the source encodes all three as
`std::io::Error` values (I/O errors propagated by `?`, `InvalidData` with
the TOML message, `InvalidData` with "No config tables"). -/
inductive LoadError where
  | ioError
  | malformedConfig
  | emptyConfig
deriving DecidableEq, Repr

/-- `Config::load_config_file` (`src/config/mod.rs` lines 225-246) past the
external I/O and parse steps: every entry's profile gets the entry's key as
its `name`, and zero entries is an error. -/
def load_config_file (r : FileReadResult) : Except LoadError (List Config) :=
  match r with
  | FileReadResult.ioError => Except.error LoadError.ioError
  | FileReadResult.parseError => Except.error LoadError.malformedConfig
  | FileReadResult.parsed entries =>
    let result := entries.map fun e => { e.2 with name := e.1 }
    if result.isEmpty then Except.error LoadError.emptyConfig else Except.ok result

/-- The process environment: the current working directory
(`env::current_dir`, assumed to succeed), filesystem path canonicalisation
(`fs::canonicalize`; `none` models an `Err`, on which the source calls
`.unwrap()` and panics), and the per-path outcome of reading a config
file. -/
structure Env where
  cwd : PathBuf
  canonicalize : PathBuf → Option PathBuf
  readConfig : PathBuf → FileReadResult

/-- `Config::get_base_dir` (`src/config/mod.rs` lines 273-284). `none`
models the panic when canonicalising a relative root fails. -/
def get_base_dir (c : Config) (env : Env) : Option PathBuf :=
  match c.root with
  | some root =>
    if isAbsolute (parsePath root) then some (parsePath root)
    else env.canonicalize (env.cwd ++ parsePath root)
  | none => some env.cwd

/-- `Config::strip_base_dir` (`src/config/mod.rs` lines 289-291): the
relative path from the base dir, falling back to the path unchanged. -/
def strip_base_dir (c : Config) (env : Env) (path : PathBuf) : Option PathBuf :=
  (get_base_dir c env).map fun base => (path_relative_from path base).getD path

/-- Modelled from the spec: `regexes_from_excluded` lives in
`src/config/parse.rs` (absent); per spec §4.2 it compiles each glob string
of its argument into an anchored matcher. -/
def regexes_from_excluded (raw : List String) : List Regex :=
  raw.map fun s => Regex.mk s.data

/-- `Config::exclude_path` (`src/config/mod.rs` lines 254-266): if the
cache length differs from the raw-pattern count, append the compiled forms
of the raw patterns to the cache; then test whether any cached matcher
matches the path relative to the base dir. The updated cache is returned as
the new `Config` (the `RefCell` write-back); `none` models the panic inside
`get_base_dir`. -/
def exclude_path (c : Config) (env : Env) (path : PathBuf) : Option (Bool × Config) :=
  let cache :=
    if c.excluded_files.length ≠ c.excluded_files_raw.length then
      c.excluded_files ++ regexes_from_excluded c.excluded_files_raw
    else c.excluded_files
  match strip_base_dir c env path with
  | none => none
  | some project =>
    some (cache.any (fun x => x.is_match (pathToString project)),
          { c with excluded_files := cache })

/-- `Config::is_coveralls` (`src/config/mod.rs` lines 249-251). -/
def is_coveralls (c : Config) : Bool :=
  c.coveralls.isSome

/-- `clap::ArgMatches`, reduced to the query surface the module uses:
flag presence, single values and repeated values. -/
structure ArgMatches where
  present : String → Bool
  value : String → Option String
  values : String → List String

/-- Modelled from the spec: `get_list` lives in `src/config/parse.rs`
(absent); the repeated string values of an option. -/
def get_list (args : ArgMatches) (key : String) : List String :=
  args.values key

/-- Modelled from the spec: `get_manifest` lives in `src/config/parse.rs`
(absent); the manifest path option, defaulting per §3. -/
def get_manifest (args : ArgMatches) : PathBuf :=
  match args.value "manifest-path" with
  | some m => parsePath m
  | none => default_manifest

/-- Modelled from the spec: `get_root` lives in `src/config/parse.rs`
(absent); the optional root string. -/
def get_root (args : ArgMatches) : Option String :=
  args.value "root"

/-- Modelled from the spec: `get_run_types` lives in `src/config/parse.rs`
(absent); defaults to `[Tests]` per §3. -/
def get_run_types (args : ArgMatches) : List RunType :=
  if args.present "run-types" then (args.values "run-types").map RunType.named
  else [RunType.Tests]

/-- Modelled from the spec: `get_line_cov` lives in `src/config/parse.rs`
(absent); line coverage defaults to on per §3. -/
def get_line_cov (args : ArgMatches) : Bool :=
  args.present "line" || !args.present "branch"

/-- Modelled from the spec: `get_branch_cov` lives in `src/config/parse.rs`
(absent); branch coverage defaults to off per §3. -/
def get_branch_cov (args : ArgMatches) : Bool :=
  args.present "branch"

/-- Modelled from the spec: `get_outputs` lives in `src/config/parse.rs`
(absent); the requested output formats. -/
def get_outputs (args : ArgMatches) : List OutputFile :=
  (args.values "out").map OutputFile.named

/-- Modelled from the spec: `get_output_directory` lives in
`src/config/parse.rs` (absent); the output directory option. -/
def get_output_directory (args : ArgMatches) : PathBuf :=
  match args.value "output-dir" with
  | some d => parsePath d
  | none => []

/-- Modelled from the spec: `get_coveralls` lives in `src/config/parse.rs`
(absent); the coveralls token option. -/
def get_coveralls (args : ArgMatches) : Option String :=
  args.value "coveralls"

/-- Modelled from the spec: `get_ci` lives in `src/config/parse.rs`
(absent); the CI-tool selection option. -/
def get_ci (args : ArgMatches) : Option CiService :=
  (args.value "ciserver").map CiService.named

/-- Modelled from the spec: `get_report_uri` lives in
`src/config/parse.rs` (absent); the report endpoint override. -/
def get_report_uri (args : ArgMatches) : Option String :=
  args.value "report-uri"

/-- Modelled from the spec: `get_timeout` lives in `src/config/parse.rs`
(absent); the test timeout in seconds, default 60 per §3. -/
def get_timeout (args : ArgMatches) : Nat :=
  ((args.value "timeout").bind String.toNat?).getD 60

/-- Modelled from the spec: `get_target_dir` lives in
`src/config/parse.rs` (absent); the build artifact directory option. -/
def get_target_dir (args : ArgMatches) : Option PathBuf :=
  (args.value "target-dir").map parsePath

/-- Modelled from the spec: `get_excluded` lives in `src/config/parse.rs`
(absent); the compiled forms of the `exclude-files` globs (the source
pre-populates the matcher cache with these at construction). -/
def get_excluded (args : ArgMatches) : List Regex :=
  regexes_from_excluded (get_list args "exclude-files")

/-- The baseline profile built from CLI inputs: the `args_config` value of
`impl From<&ArgMatches> for Config` (`src/config/mod.rs` lines 148-193).
In particular `verbose` is `is_present("verbose") || is_present("debug")`
(lines 150-151, 165-166). -/
def args_config (args : ArgMatches) : Config where
  name := ""
  manifest := get_manifest args
  config := none
  root := get_root args
  run_types := get_run_types args
  run_ignored := args.present "ignored"
  ignore_tests := args.present "ignore-tests"
  ignore_panics := args.present "ignore-panics"
  force_clean := args.present "force-clean"
  verbose := args.present "verbose" || args.present "debug"
  debug := args.present "debug"
  count := args.present "count"
  line_coverage := get_line_cov args
  branch_coverage := get_branch_cov args
  generate := get_outputs args
  output_directory := get_output_directory args
  coveralls := get_coveralls args
  ci_tool := get_ci args
  report_uri := get_report_uri args
  forward_signals := args.present "forward"
  all_features := args.present "all-features"
  no_default_features := args.present "no-default-features"
  features := get_list args "features"
  unstable_features := get_list args "Z"
  all := args.present "all" || args.present "workspace"
  packages := get_list args "packages"
  exclude := get_list args "exclude"
  excluded_files := get_excluded args
  excluded_files_raw := get_list args "exclude-files"
  varargs := get_list args "args"
  test_timeout := get_timeout args
  release := args.present "release"
  no_run := args.present "no-run"
  locked := args.present "locked"
  frozen := args.present "frozen"
  target_dir := get_target_dir args
  offline := args.present "offline"

/-- The config-path resolution step of the resolver
(`src/config/mod.rs` lines 196-203): a relative path is joined onto the
current directory and canonicalised; `none` models the `.unwrap()` panic
when canonicalisation fails (e.g. the file does not exist). -/
def resolveConfigPath (env : Env) (v : String) : Option PathBuf :=
  let path := parsePath v
  if isAbsolute path then some path
  else env.canonicalize (env.cwd ++ path)

/-- `impl From<&ArgMatches> for Config` (`src/config/mod.rs` lines
147-222): build the baseline profile, and when a config file is designated
resolve its path (panic modelled as `none`), load it, stamp every loaded
profile with the resolved path and return the first, falling back to the
baseline when loading fails or yields nothing. -/
def configFrom (args : ArgMatches) (env : Env) : Option Config :=
  let ac := args_config args
  if args.present "config" then
    match args.value "config" with
    | none => none
    | some v =>
      match resolveConfigPath env v with
      | none => none
      | some path =>
        match load_config_file (env.readConfig path) with
        | Except.error _ => some ac
        | Except.ok confs =>
          let confs := confs.map fun c => { c with config := some path }
          match confs with
          | [] => some ac
          | c :: _ => some c
  else some ac

/-! ## Helper lemmas about the component walk -/

/-- With the path iterator exhausted, the walk emits one parent step per
remaining base component and succeeds. -/
theorem relLoop_nil_left (bs comps : List Component) :
    relLoop [] bs comps = some (comps ++ bs.map fun _ => Component.parentDir) := by
  induction bs generalizing comps with
  | nil => simp [relLoop]
  | cons b bs ih => simp [relLoop, ih, List.append_assoc]

/-- Walking a list against itself consumes everything silently. -/
theorem relLoop_self (l : List Component) : relLoop l l [] = some [] := by
  induction l with
  | nil => rfl
  | cons a l ih => simpa [relLoop] using ih

/-- A shared leading prefix is consumed without output. -/
theorem relLoop_common (c pa pb : List Component) :
    relLoop (c ++ pa) (c ++ pb) [] = relLoop pa pb [] := by
  induction c with
  | nil => rfl
  | cons x c ih => simpa [relLoop] using ih

/-- Anything the walk returns extends the already-accumulated output. -/
theorem relLoop_extend (bs : List Component) :
    ∀ (as comps res : List Component), relLoop as bs comps = some res →
      ∃ t, res = comps ++ t := by
  induction bs with
  | nil =>
    intro as comps res h
    cases as with
    | nil => exact ⟨[], by simpa [relLoop] using h.symm⟩
    | cons a as => exact ⟨a :: as, by simpa [relLoop] using h.symm⟩
  | cons b bs ih =>
    intro as comps res h
    cases as with
    | nil =>
      obtain ⟨t, ht⟩ := ih [] (comps ++ [Component.parentDir]) res
        (by simpa [relLoop] using h)
      exact ⟨Component.parentDir :: t, by simpa [List.append_assoc] using ht⟩
    | cons a as =>
      simp only [relLoop] at h
      split at h
      · exact ih as comps res h
      · split at h
        · obtain ⟨t, ht⟩ := ih as (comps ++ [a]) res h
          exact ⟨a :: t, by simpa [List.append_assoc] using ht⟩
        · split at h
          · exact Option.noConfusion h
          · exact ⟨Component.parentDir :: ((bs.map fun _ => Component.parentDir) ++ a :: as),
              by simpa [List.append_assoc] using (Option.some.inj h).symm⟩

/-- The exact circumstances in which the component walk fails: lock-step
over path and base, where `alive` records whether the output vector is
still empty (so the identical-leading-components arm is still reachable).
Failure happens exactly on a parent-directory component of base that faces
a still-present path component without being consumed by the
identical-leading arm. -/
def relFails : List Component → List Component → Bool → Bool
  | _, [], _ => false
  | [], _ :: _, _ => false
  | a :: as, b :: bs, alive =>
    if alive = true ∧ a = b then relFails as bs alive
    else if b = Component.curDir then relFails as bs false
    else if b = Component.parentDir then true
    else false

/-- The walk returns `none` exactly when `relFails` fires. -/
theorem relLoop_none_iff (bs : List Component) :
    ∀ (as comps : List Component),
      relLoop as bs comps = none ↔ relFails as bs comps.isEmpty = true := by
  induction bs with
  | nil => intro as comps; cases as <;> simp [relLoop, relFails]
  | cons b bs ih =>
    intro as comps
    cases as with
    | nil => simp [relLoop_nil_left, relFails]
    | cons a as =>
      cases comps with
      | nil =>
        by_cases hab : a = b
        · simpa [relLoop, relFails, hab] using ih as []
        · by_cases hcur : b = Component.curDir
          · subst hcur
            simpa [relLoop, relFails, hab] using ih as [a]
          · by_cases hpar : b = Component.parentDir
            · subst hpar
              simp [relLoop, relFails, hab]
            · simp [relLoop, relFails, hab, hcur, hpar]
      | cons x xs =>
        by_cases hcur : b = Component.curDir
        · simpa [relLoop, relFails, hcur] using ih as (x :: (xs ++ [a]))
        · by_cases hpar : b = Component.parentDir
          · simp [relLoop, relFails, hcur, hpar]
          · simp [relLoop, relFails, hcur, hpar]

/-- A star-free glob is an anchored exact-equality test. -/
theorem globMatch_no_star (p : List Char) (h : '*' ∉ p) :
    ∀ s, globMatch p s = true ↔ s = p := by
  induction p with
  | nil => intro s; cases s <;> simp [globMatch]
  | cons q ps ih =>
    intro s
    have hq : q ≠ '*' := fun hq => h (hq ▸ List.mem_cons_self q ps)
    have hps : '*' ∉ ps := fun hm => h (List.mem_cons_of_mem q hm)
    cases s with
    | nil => simp [globMatch, hq]
    | cons c s =>
      simp only [globMatch, if_neg hq, Bool.and_eq_true, decide_eq_true_eq,
        ih hps, List.cons.injEq]
      constructor
      · rintro ⟨h1, h2⟩; exact ⟨h1.symm, h2⟩
      · rintro ⟨h1, h2⟩; exact ⟨h1.symm, h2⟩

/-- Compilation preserves the pattern count. -/
theorem regexes_from_excluded_length (raw : List String) :
    (regexes_from_excluded raw).length = raw.length :=
  List.length_map raw _

/-! ## Concrete fixtures used by witnesses and counterexamples -/

/-- An environment with an absolute working directory, failing
canonicalisation and unreadable config files. -/
def envSimple : Env where
  cwd := [Component.rootDir, Component.normal "w"]
  canonicalize := fun _ => none
  readConfig := fun _ => FileReadResult.ioError

/-! ## Claim theorems -/

/-- C3 (amended): `relative_path(path, base)` fails exactly when either
`path` is relative and `base` is absolute, or — both being equally
absolute — the lock-step walk reaches a parent-directory component of
`base` facing a still-present component of `path` without the pair being
consumed as identical leading components (this circumstance is captured
exactly by `relFails`); when `path` is absolute and `base` relative, it
succeeds and returns `path` verbatim. -/
theorem c3_failure_characterization :
    ∀ path base : PathBuf,
      (path_relative_from path base = none ↔
        (isAbsolute path = false ∧ isAbsolute base = true) ∨
        (isAbsolute path = isAbsolute base ∧ relFails path base true = true)) ∧
      (isAbsolute path = true → isAbsolute base = false →
        path_relative_from path base = some path) := by
  intro path base
  cases hpa : isAbsolute path <;> cases hpb : isAbsolute base
  · refine ⟨?_, fun h1 _ => Bool.noConfusion h1⟩
    have hne : ¬ (isAbsolute path ≠ isAbsolute base) := by simp [hpa, hpb]
    unfold path_relative_from
    rw [if_neg hne]
    simpa [hpa, hpb] using relLoop_none_iff base path []
  · refine ⟨?_, fun h1 _ => Bool.noConfusion h1⟩
    have hne : isAbsolute path ≠ isAbsolute base := by simp [hpa, hpb]
    unfold path_relative_from
    rw [if_pos hne, if_neg (by simp [hpa])]
    simp [hpa, hpb]
  · constructor
    · have hne : isAbsolute path ≠ isAbsolute base := by simp [hpa, hpb]
      unfold path_relative_from
      rw [if_pos hne, if_pos hpa]
      simp [hpa, hpb]
    · intro _ _
      have hne : isAbsolute path ≠ isAbsolute base := by simp [hpa, hpb]
      unfold path_relative_from
      rw [if_pos hne, if_pos hpa]
  · refine ⟨?_, fun _ h2 => Bool.noConfusion h2⟩
    have hne : ¬ (isAbsolute path ≠ isAbsolute base) := by simp [hpa, hpb]
    unfold path_relative_from
    rw [if_neg hne]
    simpa [hpa, hpb] using relLoop_none_iff base path []

/-- C3 counterexample: the claim's "fails exactly when ... base contains a
parent-directory component at the point of comparison" is false on the
code. With path `../x` and base `../y`, base's `..` is at the point of
comparison (against path's `..`), yet the call succeeds with `../x`
(identical leading components are consumed even when they are `..`); with
path `a` and base `a/..`, base's `..` is reached with path exhausted and
the call succeeds with `..` (the exhausted-path arm emits a parent step for
every remaining base component, `..` included). -/
theorem c3_parent_component_counterexample :
    path_relative_from (parsePath "../x") (parsePath "../y")
        = some [Component.parentDir, Component.normal "x"] ∧
    path_relative_from (parsePath "a") (parsePath "a/..")
        = some [Component.parentDir] := by
  exact ⟨rfl, rfl⟩

/-- C3 witness: an absolute path against a relative base is returned
verbatim. -/
theorem c3_mixed_witness :
    path_relative_from [Component.rootDir, Component.normal "a"]
        [Component.normal "b"]
      = some [Component.rootDir, Component.normal "a"] :=
  (c3_failure_characterization
    [Component.rootDir, Component.normal "a"] [Component.normal "b"]).2 rfl rfl

/-- C4 (amended): for pairs of equal absoluteness, identical leading
components are consumed without output, and at the first divergence —
provided base's component there is a normal component (not a literal `.`
or `..`) whenever a path component remains — one parent step is emitted
for every remaining component of base from that point onward, followed by
all remaining components of path in order; in particular the relative path
from base `/this/should/form/a/rel/path` to target
`/this/should/form/b/rel/path` is `../../../b/rel/path`. -/
theorem c4_divergence_emission :
    (∀ common pa pb : List Component,
      isAbsolute (common ++ pa) = isAbsolute (common ++ pb) →
      (pa = [] ∨ pb = [] ∨
        (pa.head? ≠ pb.head? ∧ ∃ s, pb.head? = some (Component.normal s))) →
      path_relative_from (common ++ pa) (common ++ pb)
        = some ((pb.map fun _ => Component.parentDir) ++ pa)) ∧
    (path_relative_from (parsePath "/this/should/form/b/rel/path")
        (parsePath "/this/should/form/a/rel/path")).map pathToString
      = some "../../../b/rel/path" := by
  constructor
  · intro common pa pb habs hdiv
    unfold path_relative_from
    rw [if_neg (by simp [habs]), relLoop_common]
    rcases hdiv with h | h | ⟨hne, s, hs⟩
    · subst h
      rw [relLoop_nil_left]
      simp
    · subst h
      cases pa with
      | nil => rfl
      | cons a as => simp [relLoop]
    · cases pb with
      | nil => exact Option.noConfusion hs
      | cons b bs =>
        have hb : b = Component.normal s := by
          simpa using hs
        subst hb
        cases pa with
        | nil => rw [relLoop_nil_left]; simp
        | cons a as =>
          have hab : a ≠ Component.normal s := by
            intro he
            exact hne (by simp [he])
          simp [relLoop, hab]
  · rfl

/-- C4 counterexample: the claim's emission rule is false when base's
component at the divergence point is a literal `.`. For path `b` against
base `./a` the code emits the path component `b` first and then a parent
step, yielding `b/..` — not `../../b` (one parent per remaining base
component then the path remainder, divergence read at position 0) nor `..`
(the same rule with the `.` treated as transparently matching). -/
theorem c4_curdir_counterexample :
    (path_relative_from (parsePath "b") (parsePath "./a")).map pathToString
        = some "b/.." ∧
    (path_relative_from (parsePath "b") (parsePath "./a")).map pathToString
        ≠ some "../../b" ∧
    (path_relative_from (parsePath "b") (parsePath "./a")).map pathToString
        ≠ some ".." := by
  refine ⟨rfl, by decide, by decide⟩

/-- C4 witness: a concrete divergence with a normal base component. -/
theorem c4_divergence_witness :
    path_relative_from
        [Component.rootDir, Component.normal "r", Component.normal "x"]
        [Component.rootDir, Component.normal "r", Component.normal "y"]
      = some [Component.parentDir, Component.normal "x"] :=
  c4_divergence_emission.1 [Component.rootDir, Component.normal "r"]
    [Component.normal "x"] [Component.normal "y"] rfl
    (Or.inr (Or.inr ⟨by decide, "y", rfl⟩))

/-- C5 (amended): a literal current-directory component in base at the
point of comparison (not consumed as an identical leading pair) consumes
the corresponding component of path but pushes that path component into
the output — it becomes the first emitted component of any successful
result — rather than matching transparently without affecting the
output. -/
theorem c5_curdir_emits_path_component :
    ∀ (a : Component) (as bs : List Component),
      a ≠ Component.rootDir → a ≠ Component.curDir →
      path_relative_from (a :: as) (Component.curDir :: bs) = relLoop as bs [a] ∧
      ∀ res, relLoop as bs [a] = some res → res.head? = some a := by
  intro a as bs hroot hcur
  have habs : isAbsolute (a :: as) = false := by
    cases a with
    | rootDir => exact absurd rfl hroot
    | curDir => rfl
    | parentDir => rfl
    | normal s => rfl
  constructor
  · have h2 : isAbsolute (Component.curDir :: bs) = false := rfl
    unfold path_relative_from
    rw [if_neg (by rw [habs, h2]; exact fun h => h rfl)]
    simp [relLoop, hcur]
  · intro res hres
    obtain ⟨t, ht⟩ := relLoop_extend bs as [a] res hres
    rw [ht]
    rfl

/-- C5 counterexample: for path `a` against base `./a` the code returns
`a/..`; transparent matching of the `.` (consuming it without affecting
the output, as if the components were identical) would leave base
remainder `a` against an exhausted path and produce `..`. -/
theorem c5_transparency_counterexample :
    (path_relative_from (parsePath "a") (parsePath "./a")).map pathToString
        = some "a/.." ∧
    (path_relative_from (parsePath "a") (parsePath "./a")).map pathToString
        ≠ some ".." := by
  refine ⟨rfl, by decide⟩

/-- C5 witness: concrete instance of the amended behaviour. -/
theorem c5_curdir_witness :
    path_relative_from [Component.normal "x"] [Component.curDir]
        = relLoop [] [] [Component.normal "x"] ∧
      ∀ res, relLoop [] [] [Component.normal "x"] = some res →
        res.head? = some (Component.normal "x") :=
  c5_curdir_emits_path_component (Component.normal "x") [] []
    (by decide) (by decide)

/-- C7: `strip_base_dir(path)` returns `relative_path(path, get_base_dir())`
when a relative path is derivable, and otherwise returns `path` unchanged
rather than failing. -/
theorem c7_strip_base_dir_fallback :
    ∀ (c : Config) (env : Env) (p base : PathBuf),
      get_base_dir c env = some base →
      (∀ r, path_relative_from p base = some r →
        strip_base_dir c env p = some r) ∧
      (path_relative_from p base = none → strip_base_dir c env p = some p) := by
  intro c env p base hb
  constructor
  · intro r hr
    simp [strip_base_dir, hb, hr]
  · intro hn
    simp [strip_base_dir, hb, hn]

/-- C7 witness: stripping a path under the base directory. -/
theorem c7_strip_witness :
    strip_base_dir Config.default envSimple
        [Component.rootDir, Component.normal "w", Component.normal "x"]
      = some [Component.normal "x"] :=
  (c7_strip_base_dir_fallback Config.default envSimple
      [Component.rootDir, Component.normal "w", Component.normal "x"]
      [Component.rootDir, Component.normal "w"] rfl).1
    [Component.normal "x"] rfl

/-- C10: for every path `p`, `relative_path(p, p)` succeeds and returns the
empty component sequence; consequently `strip_base_dir` applied to the base
directory itself yields the empty path rather than failing or returning the
input unchanged. -/
theorem c10_rel_path_self :
    (∀ p : PathBuf, path_relative_from p p = some []) ∧
    (∀ (c : Config) (env : Env) (base : PathBuf),
      get_base_dir c env = some base → strip_base_dir c env base = some []) := by
  have h1 : ∀ p : PathBuf, path_relative_from p p = some [] := by
    intro p
    unfold path_relative_from
    rw [if_neg (by exact fun h => h rfl)]
    exact relLoop_self p
  refine ⟨h1, fun c env base hb => ?_⟩
  simp [strip_base_dir, hb, h1 base]

/-- C10 witness: stripping the base directory itself. -/
theorem c10_self_witness :
    strip_base_dir Config.default envSimple
        [Component.rootDir, Component.normal "w"] = some [] :=
  c10_rel_path_self.2 Config.default envSimple
    [Component.rootDir, Component.normal "w"] rfl

/-- C1 (amended): whenever `exclude_path` runs with the compiled-matcher
cache length differing from the raw-pattern count, the recompile step
appends compiled versions of ALL the raw patterns (from index 0, not from
the gap index), so immediately after the recompile step the cache length
equals its previous length plus the length of `excluded_files_raw`; it
equals the length of `excluded_files_raw` exactly when the cache was
previously empty. -/
theorem c1_recompile_appends_all :
    ∀ (c : Config) (env : Env) (p : PathBuf) (b : Bool) (c2 : Config),
      c.excluded_files.length ≠ c.excluded_files_raw.length →
      exclude_path c env p = some (b, c2) →
      c2.excluded_files.length
          = c.excluded_files.length + c.excluded_files_raw.length ∧
      (c2.excluded_files.length = c.excluded_files_raw.length ↔
        c.excluded_files = []) := by
  intro c env p b c2 hlen h
  simp only [exclude_path] at h
  rw [if_pos hlen] at h
  rcases hs : strip_base_dir c env p with _ | proj
  · rw [hs] at h
    exact Option.noConfusion h
  · rw [hs] at h
    simp only [Option.some.injEq, Prod.mk.injEq] at h
    obtain ⟨-, hc⟩ := h
    have hcache : c2.excluded_files
        = c.excluded_files ++ regexes_from_excluded c.excluded_files_raw := by
      rw [← hc]
    rw [hcache, List.length_append, regexes_from_excluded_length]
    exact ⟨rfl, by rw [add_left_eq_self, List.length_eq_zero]⟩

/-- The C1 counterexample state: one already-compiled matcher, two raw
patterns — reachable by compiling with a single raw pattern and then
appending a second raw pattern (the incremental growth the spec's contract
covers). -/
def c1Config : Config :=
  { Config.default with
      excluded_files := [Regex.mk "a".data],
      excluded_files_raw := ["a", "b"] }

/-- C1 counterexample: the claim says the cache is re-derived to be in
length-sync (length 2 here, appending only the pattern past the gap);
the code appends compiled versions of all raw patterns, leaving a cache of
length 3 ≠ 2 after the query. -/
theorem c1_length_counterexample :
    (exclude_path c1Config envSimple []).map (fun r => r.2.excluded_files.length)
        = some 3 ∧
    c1Config.excluded_files_raw.length = 2 := by
  exact ⟨rfl, rfl⟩

/-- The C1 witness state: empty cache, one raw pattern. -/
def c1WitnessConfig : Config :=
  { Config.default with excluded_files_raw := ["a"] }

/-- The config state after the C1 witness query: the one compiled
pattern. -/
def c1WitnessResult : Config :=
  { c1WitnessConfig with excluded_files := [Regex.mk "a".data] }

/-- C1 witness: concrete instance of the amended cache growth law. -/
theorem c1_recompile_witness :
    c1WitnessResult.excluded_files.length
        = c1WitnessConfig.excluded_files.length
            + c1WitnessConfig.excluded_files_raw.length ∧
    (c1WitnessResult.excluded_files.length
        = c1WitnessConfig.excluded_files_raw.length ↔
      c1WitnessConfig.excluded_files = []) :=
  c1_recompile_appends_all c1WitnessConfig envSimple [] false c1WitnessResult
    (by decide) (by decide)

/-- C2 (amended): for every CLI input set designating a configuration-file
path that resolves (it is absolute, or relative and canonicalizable), if
loading the resolved file fails for any reason the resolver returns the
baseline profile built from the CLI inputs unchanged; but when the
designated path is relative and cannot be canonicalised (e.g. a
nonexistent file), the resolver panics instead of falling back. -/
theorem c2_fallback_on_load_failure :
    ∀ (args : ArgMatches) (env : Env) (v : String) (path : PathBuf)
      (e : LoadError),
      args.present "config" = true →
      args.value "config" = some v →
      resolveConfigPath env v = some path →
      load_config_file (env.readConfig path) = Except.error e →
      configFrom args env = some (args_config args) := by
  intro args env v path e hp hv hr hl
  simp only [configFrom, hp, hv, hr, hl, if_true]

/-- The C2 counterexample CLI inputs: a relative config-file path. -/
def c2Args : ArgMatches where
  present := fun s => s = "config"
  value := fun s => if s = "config" then some "tarpaulin.toml" else none
  values := fun _ => []

/-- The C2 counterexample environment: canonicalisation fails on every
path (the designated file does not exist). -/
def c2Env : Env where
  cwd := [Component.rootDir, Component.normal "home"]
  canonicalize := fun _ => none
  readConfig := fun _ => FileReadResult.ioError

/-- C2 counterexample: with a relative, nonexistent config-file path the
resolver panics (`canonicalize().unwrap()`, modelled as `none`) — the
baseline profile is not returned and an error does surface to the
caller. -/
theorem c2_relative_nonexistent_counterexample :
    configFrom c2Args c2Env = none ∧
    configFrom c2Args c2Env ≠ some (args_config c2Args) := by
  refine ⟨rfl, by decide⟩

/-- The C2 witness CLI inputs: an absolute config-file path. -/
def c2WitnessArgs : ArgMatches where
  present := fun s => s = "config"
  value := fun s => if s = "config" then some "/etc/tarp.toml" else none
  values := fun _ => []

/-- C2 witness: an absolute config path whose read fails falls back to the
baseline profile. -/
theorem c2_fallback_witness :
    configFrom c2WitnessArgs c2Env = some (args_config c2WitnessArgs) :=
  c2_fallback_on_load_failure c2WitnessArgs c2Env "/etc/tarp.toml"
    (parsePath "/etc/tarp.toml") LoadError.ioError rfl rfl rfl rfl

/-- A profile whose only exclusion pattern is `*module*`. -/
def cfgModule : Config :=
  { Config.default with excluded_files_raw := ["*module*"] }

/-- A profile whose only exclusion pattern is `*/lib`. -/
def cfgLib : Config :=
  { Config.default with excluded_files_raw := ["*/lib"] }

/-- A profile whose only exclusion pattern is the star-free `src/lib`. -/
def cfgExact : Config :=
  { Config.default with excluded_files_raw := ["src/lib"] }

/-- An environment with an absolute working directory (relative candidate
paths are then left unchanged by normalisation, as in the source's
tests). -/
def envBase : Env where
  cwd := [Component.rootDir, Component.normal "base"]
  canonicalize := fun _ => none
  readConfig := fun _ => FileReadResult.ioError

/-- C6: a star-free pattern excludes exactly the paths whose normalized
relative form equals the pattern (anchored, not substring), and a pattern
with `*` excludes exactly the paths fitting the wildcard-replaced shape:
`*module*` matches `src/module/file` and `module` but not `src/mod` or
`unrelated`, and `*/lib` matches `src/lib` but not `lib` or
`src/notlib`. -/
theorem c6_glob_matching :
    (∀ (pat : String) (c : Config) (env : Env) (p : PathBuf),
      '*' ∉ pat.data →
      c.root = none → c.excluded_files = [] → c.excluded_files_raw = [pat] →
      ((exclude_path c env p).map Prod.fst = some true ↔
        pathToString ((path_relative_from p env.cwd).getD p) = pat)) ∧
    (exclude_path cfgModule envBase (parsePath "src/module/file")).map Prod.fst
        = some true ∧
    (exclude_path cfgModule envBase (parsePath "module")).map Prod.fst
        = some true ∧
    (exclude_path cfgModule envBase (parsePath "src/mod")).map Prod.fst
        = some false ∧
    (exclude_path cfgModule envBase (parsePath "unrelated")).map Prod.fst
        = some false ∧
    (exclude_path cfgLib envBase (parsePath "src/lib")).map Prod.fst
        = some true ∧
    (exclude_path cfgLib envBase (parsePath "lib")).map Prod.fst
        = some false ∧
    (exclude_path cfgLib envBase (parsePath "src/notlib")).map Prod.fst
        = some false := by
  refine ⟨?_, rfl, rfl, rfl, rfl, rfl, rfl, rfl⟩
  intro pat c env p hstar hroot hcache hraw
  have hbase : get_base_dir c env = some env.cwd := by
    simp [get_base_dir, hroot]
  have hstrip : strip_base_dir c env p
      = some ((path_relative_from p env.cwd).getD p) := by
    simp [strip_base_dir, hbase]
  simp only [exclude_path, hcache, hraw, hstrip]
  rw [if_pos (by simp)]
  simp only [List.nil_append, regexes_from_excluded, List.map_cons, List.map_nil,
    List.any_cons, List.any_nil, Bool.or_false, Option.map_some', Option.some.injEq,
    Regex.is_match]
  rw [globMatch_no_star pat.data hstar]
  exact ⟨fun h => String.ext h, fun h => h ▸ rfl⟩

/-- C6 witness: the star-free pattern `src/lib` excludes exactly
`src/lib`. -/
theorem c6_glob_witness :
    (exclude_path cfgExact envBase (parsePath "src/lib")).map Prod.fst
      = some true :=
  (c6_glob_matching.1 "src/lib" cfgExact envBase (parsePath "src/lib")
      (by decide) rfl rfl rfl).mpr (by decide)

/-- C8: loading a parseable file with zero profile tables fails with
`EmptyConfig`; on success every resulting profile's name is set to its
table key; loading a file with exactly one table named `ci` yields exactly
one profile whose name is `"ci"`. -/
theorem c8_load_profiles :
    load_config_file (FileReadResult.parsed [])
        = Except.error LoadError.emptyConfig ∧
    (∀ (entries : List (String × Config)) (res : List Config),
      load_config_file (FileReadResult.parsed entries) = Except.ok res →
      res = entries.map fun e => { e.2 with name := e.1 }) ∧
    (∀ c : Config, ∃ p : Config,
      load_config_file (FileReadResult.parsed [("ci", c)]) = Except.ok [p] ∧
      p.name = "ci") := by
  refine ⟨rfl, ?_, ?_⟩
  · intro entries res h
    simp only [load_config_file] at h
    split at h
    · exact Except.noConfusion h
    · simpa using h.symm
  · intro c
    exact ⟨{ c with name := "ci" }, rfl, rfl⟩

/-- C8 witness: loading a single `ci` table. -/
theorem c8_load_witness :
    ∃ p : Config,
      load_config_file (FileReadResult.parsed [("ci", Config.default)])
          = Except.ok [p] ∧
      p.name = "ci" :=
  c8_load_profiles.2.2 Config.default

/-- C9: in every profile built from CLI-style inputs, presence of the
debug flag forces the `verbose` field to true even when the verbose flag
itself is absent (`let verbose = args.is_present("verbose") || debug`,
`src/config/mod.rs` lines 150-151). -/
theorem c9_debug_implies_verbose :
    ∀ args : ArgMatches, args.present "debug" = true →
      (args_config args).verbose = true := by
  intro args h
  simp [args_config, h]

/-- The C9 witness CLI inputs: only the debug flag is present. -/
def c9Args : ArgMatches where
  present := fun s => s = "debug"
  value := fun _ => none
  values := fun _ => []

/-- C9 witness: debug present, verbose absent, yet `verbose` is true. -/
theorem c9_debug_witness :
    c9Args.present "verbose" = false ∧ (args_config c9Args).verbose = true :=
  ⟨rfl, c9_debug_implies_verbose c9Args rfl⟩

end Tarpaulin
